import Mathlib

/-!
Verification of goPing (alvihabib/goPing): a shallow embedding of the
program's statistics accumulator and probe engine, with theorems checking
the natural-language specification against the code.

Source of truth: the final revision of the Go program (`statistic` struct,
`main` loop, `ping`, `showStatistics`).  Conventions of the embedding:

* Go `int` / `int64` / `time.Duration` are modeled as `Int`.  All counters
  move by one per loop iteration, so 64-bit wrap-around is unreachable in
  any run the claims speak about and is not modeled.
* Go `float64` (the `loss` field) is modeled as `ℚ`: the claims are about
  the loss formula `100 * lost / sent`, not about IEEE-754 rounding.
* Go integer division of `time.Duration` values truncates toward zero,
  which is `Int.tdiv`.
* Fallible steps of `ping` (socket, resolve, marshal, write, deadline,
  read, parse) are driven by an explicit environment record describing
  what the network and OS do on that call.
-/

/-- Go `time.Duration`: an `int64` count of nanoseconds, modeled as `Int`. -/
abbrev Duration := Int

/-- The `statistic` struct of goPing:

    count               int             // Number of packets sent
    lost                int             // Number of packets lost
    rtt                 time.Duration   // Round trip time for each packet
    loss                float64         // Percent loss at iteration
    rttAll              []time.Duration // All RTTs for jitter calculation
    totalDifferencesRTT time.Duration   // Differences between subsequent RTTs
    jitter              time.Duration   // Jitter
-/
structure Statistic where
  count               : Int
  lost                : Int
  rtt                 : Duration
  loss                : ℚ
  rttAll              : List Duration
  totalDifferencesRTT : Duration
  jitter              : Duration
  deriving Repr, DecidableEq

/-- `stats := new(statistic)` zero-initializes every field. -/
def initStats : Statistic :=
  { count := 0, lost := 0, rtt := 0, loss := 0, rttAll := [],
    totalDifferencesRTT := 0, jitter := 0 }

/-- The body of the main ping loop, after `stats.ping(address)` returns:
`isErr` says whether `logErr != nil`, `rtt` is the value `ping` left in
`stats.rtt`.  On error: `stats.count++; stats.lost++`.  On success:
`stats.count++; stats.rttAll = append(stats.rttAll, stats.rtt)`.  Then
`stats.loss = (float64(stats.lost) / float64(stats.count)) * 100.0`. -/
def recordOutcome (s : Statistic) (isErr : Bool) (rtt : Duration) : Statistic :=
  let s1 :=
    if isErr then
      { s with count := s.count + 1, lost := s.lost + 1, rtt := rtt }
    else
      { s with count := s.count + 1, rttAll := s.rttAll ++ [rtt], rtt := rtt }
  { s1 with loss := ((s1.lost : ℚ) / ((s1.count : Int) : ℚ)) * 100 }

/-- Folding the loop body over a finite sequence of probe results
(`(isErr, rtt)` pairs), in order. -/
def runRecord (s : Statistic) : List (Bool × Duration) → Statistic
  | [] => s
  | o :: os => runRecord (recordOutcome s o.1 o.2) os

/-- The RTT samples that successful probes contribute, in order: failures
(`isErr = true`) contribute nothing, successes contribute their RTT. -/
def successRtts : List (Bool × Duration) → List Duration
  | [] => []
  | o :: os => if o.1 then successRtts os else o.2 :: successRtts os

/-- The jitter summation loop of `showStatistics`:
`for val := range rttAll[:len-1] { diff := rttAll[val] - rttAll[val+1];
if diff < 0 { diff = -diff }; total += diff }` — the sum of absolute
differences of adjacent elements. -/
def sumAbsDiffs : List Duration → Duration
  | [] => 0
  | [_] => 0
  | a :: b :: rest => |a - b| + sumAbsDiffs (b :: rest)

/-- `showStatistics` as a state transformer (printing aside): when more
than one RTT is stored it accumulates the adjacent absolute differences
into `totalDifferencesRTT` (`+=`, the field is never reset) and sets
`jitter = time.Duration(int64(totalDifferencesRTT) / int64(len(rttAll)-1))`,
Go division truncating toward zero.  Otherwise it mutates nothing. -/
def showStatistics (s : Statistic) : Statistic :=
  if 1 < s.rttAll.length then
    let total := s.totalDifferencesRTT + sumAbsDiffs s.rttAll
    { s with totalDifferencesRTT := total,
             jitter := Int.tdiv total ((s.rttAll.length : Int) - 1) }
  else s

/-- IP family of an ICMP type value.  `golang.org/x/net` gives
`ipv4.ICMPType` and `ipv6.ICMPType` distinct Go types, so two
`icmp.Type` interface values are equal only when family AND numeric
value agree. -/
inductive Fam
  | v4
  | v6
  deriving Repr, DecidableEq

/-- Classification of the error value `ping` returns (`nil` = success).
Constructors follow the program's sources of error, in flow order.
`timeout` is the kind a deadline-expiry outcome would carry (the error
`ReadFrom` produces when the read deadline elapses); `ping` discards that
error, so no path constructs it — see `pingModel`. -/
inductive ErrKind
  | socketErr                           -- icmp.ListenPacket failed
  | resolutionErr                       -- net.ResolveIPAddr failed
  | encodeErr                           -- request.Marshal failed
  | sendErr                             -- listenPacket.WriteTo failed
  | deadlineErr                         -- listenPacket.SetReadDeadline failed
  | timeout                             -- read deadline elapsed (never returned)
  | msgTooShort                         -- icmp.ParseMessage: errMessageTooShort
  | protoUnsupported                    -- icmp.ParseMessage: unknown protocol
  | unexpectedReply (fam : Fam) (typ : Nat) -- default case of the reply switch
  deriving Repr, DecidableEq

/-- What `listenPacket.ReadFrom(replyEncoded)` does: either the read
deadline elapses (zero bytes read, a timeout error is produced — and then
discarded by `ping`), or a datagram of the given bytes arrives. -/
inductive ReadResult
  | timedOut
  | received (bytes : List Nat)
  deriving Repr, DecidableEq

/-- Environment of one `ping` call: what the OS and the network do at
each fallible step, and the elapsed time the clock shows when the read
returns (`time.Since(timeSent).Round(10 * time.Microsecond)`). -/
structure PingEnv where
  listenOk : Bool
  resolveOk : Bool
  marshalOk : Bool
  writeOk : Bool
  setDeadlineOk : Bool
  readResult : ReadResult
  elapsed : Duration
  deriving Repr, DecidableEq

/-- Protocol number → family, as `icmp.ParseMessage` dispatches on it:
1 = `iana.ProtocolICMP` (IPv4), 58 = `iana.ProtocolIPv6ICMP`. -/
def icmpFamily (proto : Nat) : Option Fam :=
  if proto = 1 then some Fam.v4 else if proto = 58 then some Fam.v6 else none

/-- The ICMP types registered in x/net/icmp's body-parser table
(`parseFns`): v4 destination-unreachable 3, time-exceeded 11,
parameter-problem 12, echo 8, echo-reply 0, extended-echo 42/43; v6
destination-unreachable 1, packet-too-big 2, time-exceeded 3,
parameter-problem 4, echo-request 128, echo-reply 129, extended-echo
160/161.  Types not in the table (neighbor solicitation 135 and
advertisement 136 among them) get a raw body with no further checks. -/
def hasBodyParseFn : Fam → Nat → Bool
  | Fam.v4, t => t == 3 || t == 11 || t == 12 || t == 8 || t == 0 || t == 42 || t == 43
  | Fam.v6, t => t == 1 || t == 2 || t == 3 || t == 4 || t == 128 || t == 129
      || t == 160 || t == 161

/-- `icmp.ParseMessage(proto, b)`: fails with `errMessageTooShort` when
fewer than 4 header bytes are present; otherwise the type is the first
byte, tagged with the protocol's family.  Every registered body parser
begins by requiring a further 4 bytes of body (8 bytes total); validation
beyond that length check (multipart extensions) is not modeled — no claim
evaluates a reply carrying extensions. -/
def parseMessage (proto : Nat) (b : List Nat) : Except ErrKind (Fam × Nat) :=
  if b.length < 4 then Except.error ErrKind.msgTooShort
  else
    match icmpFamily proto with
    | none => Except.error ErrKind.protoUnsupported
    | some fam =>
      let t := b.headD 0
      if hasBodyParseFn fam t ∧ b.length < 8 then Except.error ErrKind.msgTooShort
      else Except.ok (fam, t)

/-- The reply-type switch of `ping`: success for
`ipv6.ICMPTypeNeighborSolicitation` (135), `ipv6.ICMPTypeNeighborAdvertisement`
(136) — the fallthrough cases — and for `ipv4.ICMPTypeEchoReply` (0) and
`ipv6.ICMPTypeEchoReply` (129); every other type is the default case,
returning the "Received ... instead of echo reply" error. -/
def classifyReply (fam : Fam) (t : Nat) : Option ErrKind :=
  if (fam = Fam.v6 ∧ (t = 135 ∨ t = 136)) ∨ (fam = Fam.v4 ∧ t = 0) ∨
      (fam = Fam.v6 ∧ t = 129) then
    none
  else some (ErrKind.unexpectedReply fam t)

/-- Result of one `ping` call: the TTL/hop-limit value configured on the
capability (when that line is reached), the sequence number placed in the
echo request (when one is built), the value left in `stats.rtt`, and the
returned error (`none` = success). -/
structure PingResult where
  hopLimitSet : Option Int
  seqSent : Option Int
  rtt : Duration
  err : Option ErrKind
  deriving Repr, DecidableEq

/-- The `ping` method, as a function of the globals `wantIPv6` and `ttl`,
the sequence number it reads from `stats.count`, and the call's
environment.  Flow matches the source: select parameters by IP version
(protocol 58 for v6, 1 for v4); `ListenPacket` (error → return);
`SetHopLimit`/`SetTTL(ttl)` with the return value ignored;
`ResolveIPAddr` (error → return); build the request with `Seq: stats.count`
and `Marshal` (error → return); `WriteTo` (error → return);
`SetReadDeadline` (error → return); `ReadFrom` — whose error is DISCARDED:
on deadline expiry zero bytes were read, `stats.rtt` is still assigned the
elapsed time, and control falls through to `icmp.ParseMessage` on
`replyEncoded[:0]`; finally the reply-type switch. -/
def pingModel (wantIPv6 : Bool) (ttl : Int) (seq : Int) (env : PingEnv) : PingResult :=
  let protoICMP : Nat := if wantIPv6 then 58 else 1
  if env.listenOk then
    -- SetTTL / SetHopLimit: the configured value is exactly `ttl`
    let hop : Option Int := some ttl
    if env.resolveOk then
      if env.marshalOk then
        if env.writeOk then
          if env.setDeadlineOk then
            let bytes : List Nat :=
              match env.readResult with
              | ReadResult.timedOut => []
              | ReadResult.received bs => bs.take 1000
            let rtt := env.elapsed
            match parseMessage protoICMP bytes with
            | Except.error e =>
              { hopLimitSet := hop, seqSent := some seq, rtt := rtt, err := some e }
            | Except.ok ft =>
              { hopLimitSet := hop, seqSent := some seq, rtt := rtt,
                err := classifyReply ft.1 ft.2 }
          else
            { hopLimitSet := hop, seqSent := some seq, rtt := 0,
              err := some ErrKind.deadlineErr }
        else
          { hopLimitSet := hop, seqSent := some seq, rtt := 0,
            err := some ErrKind.sendErr }
      else
        { hopLimitSet := hop, seqSent := some seq, rtt := 0,
          err := some ErrKind.encodeErr }
    else
      { hopLimitSet := hop, seqSent := none, rtt := 0,
        err := some ErrKind.resolutionErr }
  else
    { hopLimitSet := none, seqSent := none, rtt := 0, err := some ErrKind.socketErr }

/-- The `-ttl` flag check in `main`: `if *timeToLive < 0 { *timeToLive = 64 }`,
then `ttl = *timeToLive`. -/
def effectiveTTL (timeToLive : Int) : Int :=
  if timeToLive < 0 then 64 else timeToLive

/-- One iteration of the main loop: `ping` is called with the current
`stats.count` as the sequence number, then the outcome is recorded
(`logErr != nil` = `err.isSome`). -/
def loopIteration (wantIPv6 : Bool) (ttl : Int) (s : Statistic) (env : PingEnv) :
    Statistic × PingResult :=
  let r := pingModel wantIPv6 ttl s.count env
  (recordOutcome s r.err.isSome r.rtt, r)

/-- The main ping loop `for i := 0; i != *pingCount; i++ { ... }`, with
explicit fuel bounding the number of loop-condition checks (the Go loop
never terminates when `pingCount` is negative: `i` counts up from 0). -/
def mainLoop (wantIPv6 : Bool) (ttl : Int) (envs : Nat → PingEnv) :
    Nat → Int → Int → Statistic → Option Statistic
  | 0, _, _, _ => none
  | fuel + 1, i, pingCount, s =>
    if i = pingCount then some s
    else
      mainLoop wantIPv6 ttl envs fuel (i + 1) pingCount
        (loopIteration wantIPv6 ttl s (envs i.toNat)).1

/-- The per-iteration observables of the main loop: for each iteration, the
sequence number placed in the echo request (when one was built) and the
`Seq:` value the log line prints — `stats.count` AFTER the increment. -/
def runPingTrace (wantIPv6 : Bool) (ttl : Int) : Statistic → List PingEnv →
    List (Option Int × Int)
  | _, [] => []
  | s, e :: es =>
    let r := pingModel wantIPv6 ttl s.count e
    let s2 := recordOutcome s r.err.isSome r.rtt
    (r.seqSent, s2.count) :: runPingTrace wantIPv6 ttl s2 es

section AccumulatorInvariants

theorem recordOutcome_count (s : Statistic) (e : Bool) (r : Duration) :
    (recordOutcome s e r).count = s.count + 1 := by
  cases e <;> simp [recordOutcome]

theorem recordOutcome_lost (s : Statistic) (e : Bool) (r : Duration) :
    (recordOutcome s e r).lost = if e then s.lost + 1 else s.lost := by
  cases e <;> simp [recordOutcome]

theorem recordOutcome_loss (s : Statistic) (e : Bool) (r : Duration) :
    (recordOutcome s e r).loss =
      (((recordOutcome s e r).lost : ℚ) / ((recordOutcome s e r).count : ℚ)) * 100 := by
  cases e <;> simp [recordOutcome]

theorem recordOutcome_rttAll (s : Statistic) (e : Bool) (r : Duration) :
    (recordOutcome s e r).rttAll = if e then s.rttAll else s.rttAll ++ [r] := by
  cases e <;> simp [recordOutcome]

theorem runRecord_inv (outs : List (Bool × Duration)) (s : Statistic)
    (h0 : 0 ≤ s.count) (h1 : 0 ≤ s.lost) (h2 : s.lost ≤ s.count)
    (h3 : s.loss = if s.count = 0 then 0 else 100 * (s.lost : ℚ) / (s.count : ℚ)) :
    0 ≤ (runRecord s outs).count ∧ 0 ≤ (runRecord s outs).lost ∧
      (runRecord s outs).lost ≤ (runRecord s outs).count ∧
      (runRecord s outs).loss =
        if (runRecord s outs).count = 0 then 0
        else 100 * ((runRecord s outs).lost : ℚ) / ((runRecord s outs).count : ℚ) := by
  induction outs generalizing s with
  | nil => exact ⟨h0, h1, h2, h3⟩
  | cons o os ih =>
    refine ih (recordOutcome s o.1 o.2) ?_ ?_ ?_ ?_
    · rw [recordOutcome_count]; omega
    · rw [recordOutcome_lost]; split <;> omega
    · rw [recordOutcome_count, recordOutcome_lost]; split <;> omega
    · have hc : (recordOutcome s o.1 o.2).count ≠ 0 := by
        rw [recordOutcome_count]; omega
      rw [recordOutcome_loss, if_neg hc]
      ring

/-- C2.  For every sequence of recorded probe outcomes (any interleaving of
successes and failures), the accumulator reached from the zero-initialized
state satisfies `lost ≤ count` (sent), and `loss = 100 * lost / count`
whenever `count > 0`, while `loss = 0` when `count = 0` (the division is
never performed with `count = 0`: the loop recomputes `loss` only after
`count++`). -/
theorem loss_invariant (outs : List (Bool × Duration)) :
    (runRecord initStats outs).lost ≤ (runRecord initStats outs).count ∧
      (runRecord initStats outs).loss =
        (if (runRecord initStats outs).count = 0 then 0
         else 100 * ((runRecord initStats outs).lost : ℚ) /
           ((runRecord initStats outs).count : ℚ)) := by
  have h := runRecord_inv outs initStats (by simp [initStats]) (by simp [initStats])
    (by simp [initStats]) (by simp [initStats])
  exact ⟨h.2.2.1, h.2.2.2⟩

/-- C7.  The retained RTT sequence only ever grows: running the loop body
over any outcome sequence leaves the previous `rttAll` as an unchanged
prefix and appends exactly the successful probes' RTTs after it, in order
— one element per success (`isErr = false`), nothing for failures. -/
theorem rttAll_append_only (s : Statistic) (outs : List (Bool × Duration)) :
    (runRecord s outs).rttAll = s.rttAll ++ successRtts outs ∧
      (successRtts outs).length = (outs.filter fun o => o.1 = false).length := by
  constructor
  · induction outs generalizing s with
    | nil => simp [runRecord, successRtts]
    | cons o os ih =>
      show (runRecord (recordOutcome s o.1 o.2) os).rttAll = _
      rw [ih, recordOutcome_rttAll]
      cases h : o.1 <;> simp [successRtts, h]
  · induction outs with
    | nil => simp [successRtts]
    | cons o os ih =>
      cases h : o.1 <;> simp [successRtts, h, List.filter, ih]

end AccumulatorInvariants

section Jitter

theorem runRecord_frame (s : Statistic) (outs : List (Bool × Duration)) :
    (runRecord s outs).totalDifferencesRTT = s.totalDifferencesRTT ∧
      (runRecord s outs).jitter = s.jitter := by
  induction outs generalizing s with
  | nil => exact ⟨rfl, rfl⟩
  | cons o os ih =>
    have h2 : (recordOutcome s o.1 o.2).totalDifferencesRTT = s.totalDifferencesRTT ∧
        (recordOutcome s o.1 o.2).jitter = s.jitter := by
      cases o.1 <;> simp [recordOutcome]
    exact ⟨((ih _).1).trans h2.1, ((ih _).2).trans h2.2⟩

theorem sumAbsDiffs_eq_sum : ∀ l : List Duration,
    sumAbsDiffs l = ∑ i in Finset.range (l.length - 1), |l.getD i 0 - l.getD (i + 1) 0|
  | [] => by simp [sumAbsDiffs]
  | [a] => by simp [sumAbsDiffs]
  | a :: b :: rest => by
    rw [sumAbsDiffs, sumAbsDiffs_eq_sum (b :: rest)]
    have h1 : (a :: b :: rest).length - 1 = ((b :: rest).length - 1) + 1 := by simp
    rw [h1, Finset.sum_range_succ']
    simp only [List.getD_cons_succ, List.getD_cons_zero]
    exact add_comm _ _

/-- C1.  The jitter produced by `showStatistics` on an accumulator as the
main loop leaves it (the loop never touches `totalDifferencesRTT` or
`jitter`, so both are still zero) is the mean of absolute differences
between each successful RTT and its immediate successor in send order,
`(Σ |rtt[i] − rtt[i+1]| for i in 0..n-2) / (n-1)` — division being the
truncating integer division Go performs on `time.Duration` values — for
every RTT sequence with at least two elements, and is the zero duration
for every shorter sequence. -/
theorem jitter_formula (s : Statistic)
    (h0 : s.totalDifferencesRTT = 0) (h1 : s.jitter = 0) :
    (showStatistics s).jitter =
      if 2 ≤ s.rttAll.length then
        Int.tdiv (∑ i in Finset.range (s.rttAll.length - 1),
            |s.rttAll.getD i 0 - s.rttAll.getD (i + 1) 0|)
          ((s.rttAll.length : Int) - 1)
      else 0 := by
  unfold showStatistics
  by_cases h : 1 < s.rttAll.length
  · rw [if_pos h, if_pos (by omega)]
    simp [h0, sumAbsDiffs_eq_sum]
  · rw [if_neg h, if_neg (by omega)]
    exact h1

/-- Witness for C1 at the spec's example: RTT sequence
`[10ms, 20ms, 15ms]` (in nanoseconds) yields jitter
`(|10-20| + |20-15|) / 2 = 7.5ms`, and a singleton sequence yields `0`. -/
theorem jitter_formula_witness :
    (showStatistics { count := 3
                      lost := 0
                      rtt := 15000000
                      loss := 0
                      rttAll := [10000000, 20000000, 15000000]
                      totalDifferencesRTT := 0
                      jitter := 0 }).jitter = 7500000 ∧
    (showStatistics { count := 1
                      lost := 0
                      rtt := 12
                      loss := 0
                      rttAll := [12]
                      totalDifferencesRTT := 0
                      jitter := 0 }).jitter = 0 := by
  constructor
  · rw [jitter_formula _ rfl rfl]
    decide
  · rw [jitter_formula _ rfl rfl]
    decide

end Jitter

section SummaryMutation

theorem showStatistics_counts (s : Statistic) :
    (showStatistics s).count = s.count ∧ (showStatistics s).lost = s.lost ∧
      (showStatistics s).loss = s.loss := by
  unfold showStatistics
  by_cases h : 1 < s.rttAll.length
  · rw [if_pos h]; exact ⟨rfl, rfl, rfl⟩
  · rw [if_neg h]; exact ⟨rfl, rfl, rfl⟩

/-- C4 counterexample.  The claim "the summary operation does not mutate
accumulator state and is idempotent; a second call reports the same jitter
as the first" is false: on the accumulator holding the two successful RTTs
`0ns` and `10ns`, `showStatistics` changes the state (it adds the sum `10`
of adjacent absolute differences to `totalDifferencesRTT`, which is never
reset), the first call reports jitter `10` and a second call reports
jitter `20`. -/
theorem showStatistics_not_idempotent :
    showStatistics ⟨2, 0, 10, 0, [0, 10], 0, 0⟩ ≠
        (⟨2, 0, 10, 0, [0, 10], 0, 0⟩ : Statistic) ∧
      (showStatistics ⟨2, 0, 10, 0, [0, 10], 0, 0⟩).jitter = 10 ∧
      (showStatistics (showStatistics ⟨2, 0, 10, 0, [0, 10], 0, 0⟩)).jitter = 20 := by
  refine ⟨?_, by decide, by decide⟩
  intro h
  have h2 := congrArg Statistic.totalDifferencesRTT h
  simp [showStatistics, sumAbsDiffs] at h2

/-- C4 amended.  `showStatistics` never changes `count` (sent), `lost`,
`loss`, `rtt` or the RTT sequence, and with fewer than two stored RTTs it
is the identity; but with at least two stored RTTs each call adds the sum
of adjacent absolute RTT differences onto the never-reset
`totalDifferencesRTT` field and recomputes `jitter` from that accumulated
total, so it is not idempotent — a second call can report a doubled
jitter. -/
theorem showStatistics_effect (s : Statistic) :
    (showStatistics s).count = s.count ∧
    (showStatistics s).lost = s.lost ∧
    (showStatistics s).loss = s.loss ∧
    (showStatistics s).rtt = s.rtt ∧
    (showStatistics s).rttAll = s.rttAll ∧
    (s.rttAll.length ≤ 1 → showStatistics s = s) ∧
    (2 ≤ s.rttAll.length →
      (showStatistics s).totalDifferencesRTT =
          s.totalDifferencesRTT + sumAbsDiffs s.rttAll ∧
        (showStatistics s).jitter =
          Int.tdiv (s.totalDifferencesRTT + sumAbsDiffs s.rttAll)
            ((s.rttAll.length : Int) - 1)) := by
  unfold showStatistics
  by_cases h : 1 < s.rttAll.length
  · rw [if_pos h]
    exact ⟨rfl, rfl, rfl, rfl, rfl, fun hle => absurd h (by omega), fun _ => ⟨rfl, rfl⟩⟩
  · rw [if_neg h]
    exact ⟨rfl, rfl, rfl, rfl, rfl, fun _ => rfl, fun h2 => absurd h2 (by omega)⟩

/-- Witness for C4's amended theorem on the accumulator holding RTTs
`[0ns, 10ns]`: count and the RTT sequence are untouched while the
difference total and jitter are recomputed. -/
theorem showStatistics_effect_witness :
    (showStatistics ⟨2, 1, 10, 50, [3, 10], 0, 0⟩).count = 2 ∧
      (showStatistics ⟨2, 1, 10, 50, [3, 10], 0, 0⟩).rttAll = [3, 10] ∧
      (showStatistics ⟨2, 1, 10, 50, [3, 10], 0, 0⟩).jitter =
        Int.tdiv (0 + sumAbsDiffs [3, 10]) 1 := by
  have h := showStatistics_effect ⟨2, 1, 10, 50, [3, 10], 0, 0⟩
  exact ⟨h.1, h.2.2.2.2.1, (h.2.2.2.2.2.2 (by decide)).2⟩

end SummaryMutation

section ProbeEngine

theorem pingModel_hopLimit (v : Bool) (ttl seq : Int) (env : PingEnv)
    (hl : env.listenOk = true) :
    (pingModel v ttl seq env).hopLimitSet = some ttl := by
  obtain ⟨l, r, m, w, d, rr, el⟩ := env
  simp only at hl
  subst hl
  cases r <;> cases m <;> cases w <;> cases d <;>
    simp only [pingModel] <;> try rfl
  cases hp : parseMessage (if v then 58 else 1)
      (match rr with
       | ReadResult.timedOut => []
       | ReadResult.received bs => bs.take 1000) <;>
    simp [hp]

theorem pingModel_seq (v : Bool) (ttl q : Int) (env : PingEnv)
    (hl : env.listenOk = true) (hr : env.resolveOk = true) :
    (pingModel v ttl q env).seqSent = some q := by
  obtain ⟨l, r, m, w, d, rr, el⟩ := env
  simp only at hl hr
  subst hl; subst hr
  cases m <;> cases w <;> cases d <;>
    simp only [pingModel] <;> try rfl
  cases hp : parseMessage (if v then 58 else 1)
      (match rr with
       | ReadResult.timedOut => []
       | ReadResult.received bs => bs.take 1000) <;>
    simp [hp]

theorem parseMessage_no_timeout (p : Nat) (b : List Nat) :
    parseMessage p b ≠ Except.error ErrKind.timeout := by
  unfold parseMessage
  split_ifs with h1
  · simp
  · cases hf : icmpFamily p <;> simp [hf]
    split_ifs <;> simp

theorem pingModel_timedOut_fails (v : Bool) (ttl seq : Int) (env : PingEnv)
    (h : env.readResult = ReadResult.timedOut) :
    (pingModel v ttl seq env).err.isSome = true := by
  obtain ⟨l, r, m, w, d, rr, el⟩ := env
  simp only at h
  subst h
  cases l <;> cases r <;> cases m <;> cases w <;> cases d <;> rfl

/-- C3 (code bug).  When the read deadline elapses with no reply arriving,
`ping` does NOT return a Timeout-classified failure: the error `ReadFrom`
produces on deadline expiry is discarded (it is overwritten by the next
assignment to `err` without ever being checked), zero bytes were read, and
`icmp.ParseMessage` is invoked on the empty prefix `replyEncoded[:0]`,
whose `errMessageTooShort` error is what the probe actually returns — a
decode-error outcome.  Moreover no execution of `ping` whatsoever returns
a Timeout-kind error. -/
theorem timeout_misclassified (v : Bool) (ttl seq : Int) (elapsed : Duration) :
    (pingModel v ttl seq
        ⟨true, true, true, true, true, ReadResult.timedOut, elapsed⟩).err =
        some ErrKind.msgTooShort ∧
      ∀ env : PingEnv, (pingModel v ttl seq env).err ≠ some ErrKind.timeout := by
  constructor
  · rfl
  · intro env
    obtain ⟨l, r, m, w, d, rr, el⟩ := env
    cases l <;> cases r <;> cases m <;> cases w <;> cases d <;> try simp [pingModel]
    cases hp : parseMessage (if v then 58 else 1)
        (match rr with
         | ReadResult.timedOut => []
         | ReadResult.received bs => bs.take 1000) with
    | error e =>
      simp [hp]
      intro hc
      exact parseMessage_no_timeout _ _ (hc ▸ hp)
    | ok ft =>
      simp [hp, classifyReply]

/-- Witness for C3's theorem at a concrete call: probing IPv4 with
ttl 64, sequence 0, a 10-second elapsed read that timed out. -/
theorem timeout_misclassified_witness :
    (pingModel false 64 0
        ⟨true, true, true, true, true, ReadResult.timedOut, 10000000000⟩).err =
        some ErrKind.msgTooShort ∧
      (pingModel false 64 0
        ⟨true, true, true, true, true, ReadResult.timedOut, 10000000000⟩).err ≠
        some ErrKind.timeout := by
  have h := timeout_misclassified false 64 0 10000000000
  exact ⟨h.1, h.2 _⟩

/-- C5.  A reply whose wire type byte is the echo-reply type of the wrong
IP family for the probed version is classified as a failure of kind
UnexpectedReply, not success: probing IPv6, a datagram whose type byte is
0 (= `ipv4.ICMPTypeEchoReply`) is parsed with protocol 58, so its type
becomes the ICMPv6 type 0 — not `ipv6.ICMPTypeEchoReply` and, the parsed
type being an `ipv6.ICMPType`, never equal to the `ipv4.ICMPType`
echo-reply either — and falls to the default case of the switch;
symmetrically for a type-129 datagram (= `ipv6.ICMPTypeEchoReply`'s value)
while probing IPv4. -/
theorem wrong_family_echo_reply (ttl seq : Int) (elapsed : Duration)
    (bs : List Nat) (hlen : 4 ≤ bs.length) :
    (bs.headD 0 = 0 →
      (pingModel true ttl seq ⟨true, true, true, true, true,
          ReadResult.received bs, elapsed⟩).err =
        some (ErrKind.unexpectedReply Fam.v6 0)) ∧
    (bs.headD 0 = 129 →
      (pingModel false ttl seq ⟨true, true, true, true, true,
          ReadResult.received bs, elapsed⟩).err =
        some (ErrKind.unexpectedReply Fam.v4 129)) := by
  match bs, hlen with
  | b0 :: rest, h4 =>
    have hrest : 3 ≤ rest.length := by
      simpa using h4
    have hlt : ¬(999 ⊓ rest.length + 1 < 4) := by omega
    constructor <;> intro hb <;> simp only [List.headD] at hb <;> subst hb <;>
      simp [pingModel, parseMessage, icmpFamily, hasBodyParseFn, classifyReply, hlt]

/-- Witness for C5 on the two four-byte datagrams `[0,0,0,0]` (an IPv4
echo reply's type byte, probed as IPv6) and `[129,0,0,0]` (an IPv6 echo
reply's type byte, probed as IPv4). -/
theorem wrong_family_echo_reply_witness :
    (pingModel true 64 0 ⟨true, true, true, true, true,
        ReadResult.received [0, 0, 0, 0], 5⟩).err =
      some (ErrKind.unexpectedReply Fam.v6 0) ∧
    (pingModel false 64 0 ⟨true, true, true, true, true,
        ReadResult.received [129, 0, 0, 0], 5⟩).err =
      some (ErrKind.unexpectedReply Fam.v4 129) := by
  refine ⟨(wrong_family_echo_reply 64 0 5 [0, 0, 0, 0] (by decide)).1 rfl,
    (wrong_family_echo_reply 64 0 5 [129, 0, 0, 0] (by decide)).2 rfl⟩

/-- C6.  A probe (necessarily IPv6: only parsing with protocol 58 yields
ICMPv6 types) whose decoded reply is a neighbor solicitation (135) or
neighbor advertisement (136) returns a nil error — the fallthrough cases
of the switch — so the loop records a success, and recording it leaves
the `lost` counter unchanged. -/
theorem neighbor_discovery_success (ttl seq : Int) (elapsed : Duration)
    (bs : List Nat) (hlen : 4 ≤ bs.length)
    (hb : bs.headD 0 = 135 ∨ bs.headD 0 = 136) :
    (pingModel true ttl seq ⟨true, true, true, true, true,
        ReadResult.received bs, elapsed⟩).err = none ∧
    ∀ s : Statistic,
      (recordOutcome s
        (pingModel true ttl seq ⟨true, true, true, true, true,
          ReadResult.received bs, elapsed⟩).err.isSome
        (pingModel true ttl seq ⟨true, true, true, true, true,
          ReadResult.received bs, elapsed⟩).rtt).lost = s.lost := by
  have herr : (pingModel true ttl seq ⟨true, true, true, true, true,
      ReadResult.received bs, elapsed⟩).err = none := by
    match bs, hlen with
    | b0 :: rest, h4 =>
      have hrest : 3 ≤ rest.length := by simpa using h4
      have hlt : ¬(999 ⊓ rest.length + 1 < 4) := by omega
      simp only [List.headD] at hb
      rcases hb with hb | hb <;> subst hb <;>
        simp [pingModel, parseMessage, icmpFamily, hasBodyParseFn, classifyReply, hlt]
  refine ⟨herr, fun s => ?_⟩
  rw [herr]
  rw [recordOutcome_lost]
  rfl

/-- Witness for C6 on the four-byte neighbor-solicitation datagram
`[135,0,0,0]`: the probe succeeds and recording it from the initial
accumulator leaves `lost = 0`. -/
theorem neighbor_discovery_success_witness :
    (pingModel true 64 0 ⟨true, true, true, true, true,
        ReadResult.received [135, 0, 0, 0], 5⟩).err = none ∧
    (recordOutcome initStats
      (pingModel true 64 0 ⟨true, true, true, true, true,
        ReadResult.received [135, 0, 0, 0], 5⟩).err.isSome
      (pingModel true 64 0 ⟨true, true, true, true, true,
        ReadResult.received [135, 0, 0, 0], 5⟩).rtt).lost = initStats.lost := by
  have h := neighbor_discovery_success 64 0 5 [135, 0, 0, 0] (by decide) (Or.inl rfl)
  exact ⟨h.1, h.2 initStats⟩

/-- C9.  The TTL/hop-limit configured on the probe capability
(`SetTTL` for IPv4, `SetHopLimit` for IPv6) is exactly the requested flag
value for every non-negative request — `ttl = 0` included, nothing is
remapped — while every negative request is coerced to the default 64 by
`main` before probing. -/
theorem ttl_configured (v : Bool) (t seq : Int) (env : PingEnv)
    (hl : env.listenOk = true) :
    (pingModel v (effectiveTTL t) seq env).hopLimitSet =
      some (if t < 0 then 64 else t) := by
  rw [pingModel_hopLimit v _ seq env hl]
  rfl

/-- Witness for C9 at the boundary `ttl = 0` (kept, not remapped) and at
the negative input `ttl = -7` (coerced to 64), probing IPv4 in an
environment whose socket opens. -/
theorem ttl_configured_witness :
    (pingModel false (effectiveTTL 0) 0
        ⟨true, true, true, true, true, ReadResult.timedOut, 0⟩).hopLimitSet =
      some 0 ∧
    (pingModel false (effectiveTTL (-7)) 0
        ⟨true, true, true, true, true, ReadResult.timedOut, 0⟩).hopLimitSet =
      some 64 := by
  constructor
  · have h := ttl_configured false 0 0
      ⟨true, true, true, true, true, ReadResult.timedOut, 0⟩ rfl
    simpa using h
  · have h := ttl_configured false (-7) 0
      ⟨true, true, true, true, true, ReadResult.timedOut, 0⟩ rfl
    simpa using h

end ProbeEngine

section MainLoopTheorems

/-- C8.  With `-c 3` and every probe failing — here every read deadline
expires, which makes `ping` return an error whatever the other steps do —
the loop `for i := 0; i != 3; i++` runs its body exactly three times:
with fuel for only three loop-condition checks it has not yet terminated,
with four it exits having executed three iterations (the final `count`
of 3, incremented once per iteration, counts them), and the summary
`showStatistics` prints reports sent = 3, lost = 3, loss = 100%. -/
theorem count3_all_timeout (v : Bool) (t : Int) (envs : Nat → PingEnv)
    (h : ∀ k, (envs k).readResult = ReadResult.timedOut) :
    mainLoop v t envs 3 0 3 initStats = none ∧
      (mainLoop v t envs 4 0 3 initStats).map
        (fun s => ((showStatistics s).count, (showStatistics s).lost,
          (showStatistics s).loss)) = some (3, 3, 100) := by
  have hk : ∀ (q : Int) (k : Nat), (pingModel v t q (envs k)).err.isSome = true :=
    fun q k => pingModel_timedOut_fails v t q (envs k) (h k)
  constructor
  · norm_num [mainLoop]
  · norm_num [mainLoop, loopIteration, hk, recordOutcome, initStats, showStatistics]

/-- Witness for C8 in the environment where every call's read times out
with elapsed time 10 s and all other steps succeed. -/
theorem count3_all_timeout_witness :
    mainLoop false 64
        (fun _ => ⟨true, true, true, true, true, ReadResult.timedOut, 10000000000⟩)
        3 0 3 initStats = none ∧
      (mainLoop false 64
        (fun _ => ⟨true, true, true, true, true, ReadResult.timedOut, 10000000000⟩)
        4 0 3 initStats).map
        (fun s => ((showStatistics s).count, (showStatistics s).lost,
          (showStatistics s).loss)) = some (3, 3, 100) :=
  count3_all_timeout false 64
    (fun _ => ⟨true, true, true, true, true, ReadResult.timedOut, 10000000000⟩)
    (fun _ => rfl)

theorem runPingTrace_spec (v : Bool) (t : Int) :
    ∀ (envs : List PingEnv) (s : Statistic) (k : Nat), k < envs.length →
      ((runPingTrace v t s envs).getD k (none, 0)).2 = s.count + (k : Int) + 1 ∧
        ((envs.getD k ⟨false, false, false, false, false,
            ReadResult.timedOut, 0⟩).listenOk = true →
          (envs.getD k ⟨false, false, false, false, false,
            ReadResult.timedOut, 0⟩).resolveOk = true →
          ((runPingTrace v t s envs).getD k (none, 0)).1 = some (s.count + (k : Int)))
  | [], s, k, hk => absurd hk (by simp)
  | e :: es, s, 0, _ => by
    constructor
    · simp only [runPingTrace, List.getD_cons_zero]
      rw [recordOutcome_count]
      norm_num
    · intro hl hr
      simp only [List.getD_cons_zero] at hl hr
      simp only [runPingTrace, List.getD_cons_zero]
      rw [pingModel_seq v t s.count e hl hr]
      norm_num
  | e :: es, s, k + 1, hk => by
    have ih := runPingTrace_spec v t es
      (recordOutcome s (pingModel v t s.count e).err.isSome
        (pingModel v t s.count e).rtt) k (by simpa using hk)
    constructor
    · simp only [runPingTrace, List.getD_cons_succ]
      rw [ih.1, recordOutcome_count]
      push_cast
      ring
    · intro hl hr
      simp only [List.getD_cons_succ] at hl hr
      simp only [runPingTrace, List.getD_cons_succ]
      rw [ih.2 hl hr, recordOutcome_count]
      push_cast
      ring_nf

/-- C10.  Starting from the zero-initialized accumulator, the sequence
number placed in the echo request of iteration k (0-based) is exactly k,
the number of previously completed probe iterations — `Seq: stats.count`
is read before the iteration's increment, and `count` advances by exactly
one per iteration whatever the outcome — so the first request carries
sequence 0 and sequence numbers increase by 1 per iteration; the
per-iteration log line instead prints `stats.count` AFTER the increment,
numbering probes from 1: iteration k logs k + 1. -/
theorem sequence_numbers (v : Bool) (t : Int) (envs : List PingEnv) (k : Nat)
    (hk : k < envs.length)
    (hl : (envs.getD k ⟨false, false, false, false, false,
        ReadResult.timedOut, 0⟩).listenOk = true)
    (hr : (envs.getD k ⟨false, false, false, false, false,
        ReadResult.timedOut, 0⟩).resolveOk = true) :
    ((runPingTrace v t initStats envs).getD k (none, 0)).1 = some (k : Int) ∧
      ((runPingTrace v t initStats envs).getD k (none, 0)).2 = (k : Int) + 1 := by
  have h := runPingTrace_spec v t envs initStats k hk
  constructor
  · have h2 := h.2 hl hr
    simpa [initStats] using h2
  · simpa [initStats] using h.1

/-- Witness for C10 on a single-iteration run whose probe opens its socket
and resolves its target (the reply is a wrong-type datagram; the sequence
numbering does not depend on the outcome): the request carries sequence 0
and the log line prints 1. -/
theorem sequence_numbers_witness :
    ((runPingTrace false 64 initStats
        [⟨true, true, true, true, true, ReadResult.received [129, 0, 0, 0], 5⟩]).getD 0
        (none, 0)).1 = some 0 ∧
      ((runPingTrace false 64 initStats
        [⟨true, true, true, true, true, ReadResult.received [129, 0, 0, 0], 5⟩]).getD 0
        (none, 0)).2 = 1 := by
  have h := sequence_numbers false 64
    [⟨true, true, true, true, true, ReadResult.received [129, 0, 0, 0], 5⟩] 0
    (by decide) rfl rfl
  simpa using h

end MainLoopTheorems
